import Mathlib

/-!
Shallow embedding of the HLS Monitoring Dashboard's monitoring engine
(backend/workers/monitor.js, backend/workers/processor.js and the Stream /
MetricsHistory mongoose models), written definition-by-definition from the
JavaScript source.  JavaScript numbers that only ever hold integral values
are modelled as `Int`/`Nat`; values produced by floating-point arithmetic
that no claim depends on numerically (bitrates, fps, signal levels) are
modelled as `Rat`, which is exact and preserves the data flow.  JavaScript
truthiness (`x || d`, `if (x)`) is modelled explicitly by the `js*Or`
helpers below.
-/

namespace HLSMonitor

/-- Stream status enum from the Stream mongoose schema:
`enum: ['online', 'offline', 'error', 'stale']`. -/
inductive Status
  | online
  | offline
  | error
  | stale
deriving DecidableEq, Repr

/-- The closed `ErrorTypes` enumeration from models/Stream.js. -/
inductive ErrorType
  | MANIFEST_RETRIEVAL
  | MEDIA_SEQUENCE
  | PLAYLIST_SIZE
  | PLAYLIST_CONTENT
  | SEGMENT_CONTINUITY
  | DISCONTINUITY_SEQUENCE
  | STALE_MANIFEST
deriving DecidableEq, Repr

/-- One entry of the stream's error ledger (`streamErrors` subdocument in
models/Stream.js).  The generated `eid` and the wall-clock `date` are
nondeterministic identifiers no claim depends on and are not modelled. -/
structure StreamError where
  errorType : ErrorType
  mediaType : String
  variant : String
  details : String
  code : Option Int
deriving DecidableEq, Repr

/-- The `stats.video` block of the Stream schema.  `width`/`height` are JS
numbers that are falsy exactly when 0, so they are modelled as `Nat` with 0
playing the role of absent/zero. -/
structure VideoStats where
  codec : Option String
  profile : Option String
  level : Option String
  width : Nat
  height : Nat
  pixFmt : Option String
  colorSpace : String
  bitRate : Rat
deriving DecidableEq, Repr

/-- The `stats.audio` block of the Stream schema.  `sampleRate` is stored by
processor.js as `parseInt(audio.sample_rate) || 0`, hence a plain `Nat`
with 0 for an unreported rate. -/
structure AudioStats where
  codec : Option String
  channels : Nat
  sampleRate : Nat
  bitRate : Rat
deriving DecidableEq, Repr

/-- The `stats.container` block of the Stream schema. -/
structure ContainerStats where
  formatName : Option String
  duration : Rat
  size : Nat
  bitRate : Nat
deriving DecidableEq, Repr

/-- The `stats` block of the Stream schema. -/
structure Stats where
  bandwidth : Option Nat
  resolution : Option String
  fps : Option Rat
  video : Option VideoStats
  audio : Option AudioStats
  container : Option ContainerStats
deriving DecidableEq, Repr

/-- The `health` block of the Stream schema, with the schema defaults noted in
`defaultHealth` below.  Timestamps and durations are milliseconds as `Int`. -/
structure Health where
  isStale : Bool
  lastManifestUpdate : Option Int
  timeSinceLastUpdate : Int
  staleThreshold : Int
  mediaSequence : Int
  previousMediaSequence : Int
  sequenceJumps : Nat
  sequenceResets : Nat
  discontinuitySequence : Int
  discontinuityCount : Nat
  segmentCount : Nat
  targetDuration : Int
  playlistType : String
  totalErrors : Nat
  timeSinceLastError : Int
deriving DecidableEq, Repr

/-- A persisted Stream record (models/Stream.js). -/
structure Stream where
  name : String
  url : String
  status : Status
  health : Health
  stats : Stats
  streamErrors : List StreamError
  thumbnail : Option String
  lastChecked : Int
deriving DecidableEq, Repr

/-- Transient per-stream poll state kept in monitor.js's `streamState` map
(default object at monitor.js lines 84-88). -/
structure PollState where
  lastPollTime : Int
  lastMediaSequence : Int
  consecutiveStales : Nat
deriving DecidableEq, Repr

/-- JavaScript `x || d` for an optional numeric `x`: `undefined`/`null` and
`0` are falsy. -/
def jsNumOr (x : Option Int) (d : Int) : Int :=
  match x with
  | none => d
  | some v => if v = 0 then d else v

/-- JavaScript `x || d` for an optional string `x`: `undefined`/`null` and
the empty string are falsy. -/
def jsStrOr (x : Option String) (d : String) : String :=
  match x with
  | none => d
  | some s => if s = "" then d else s

/-- JavaScript `!x` for an optional string (true on `undefined`/`null`/`""`). -/
def jsStrFalsy : Option String → Bool
  | none => true
  | some s => s = ""

/-- JavaScript `x || d` on exact rationals (0 is the only falsy number the
model can produce). -/
def jsRatOr (x d : Rat) : Rat :=
  if x = 0 then d else x

/-- The `variant` field stored by `addError`:
`stream.stats?.bandwidth?.toString() || 'unknown'` (monitor.js line 55). -/
def variantOf (stream : Stream) : String :=
  match stream.stats.bandwidth with
  | some b => toString b
  | none => "unknown"

/-- Builds the ledger entry pushed by `addError` (monitor.js lines 50-58). -/
def mkStreamError (errorType : ErrorType) (mediaType : String) (variant : String)
    (details : String) (code : Option Int) : StreamError :=
  { errorType := errorType, mediaType := mediaType, variant := variant,
    details := details, code := code }

/-- The function `addError(stream, errorType, details, mediaType, code)` from monitor.js
lines 49-66: pushes the entry onto `streamErrors`, increments
`health.totalErrors`, resets `health.timeSinceLastError`. -/
def addError (stream : Stream) (errorType : ErrorType) (details : String)
    (mediaType : String) (code : Option Int) : Stream :=
  let e := mkStreamError errorType mediaType (variantOf stream) details code
  { stream with
      streamErrors := stream.streamErrors ++ [e],
      health := { stream.health with
        totalErrors := stream.health.totalErrors + 1,
        timeSinceLastError := 0 } }

/-- The function `calculateHealthScore` from monitor.js lines 12-22, verbatim: the
running `score` is an `Int` because it can go negative before the final
clamp. -/
def calculateHealthScore (stream : Stream) : Int :=
  let health := stream.health
  let score : Int := 100
  let score := if health.isStale then score - 30 else score
  let score := if health.sequenceJumps > 0 then
      score - min ((health.sequenceJumps : Int) * 5) 20 else score
  let score := if health.sequenceResets > 0 then
      score - min ((health.sequenceResets : Int) * 10) 30 else score
  let score := if health.totalErrors > 0 then
      score - min ((health.totalErrors : Int) * 2) 20 else score
  let score := if stream.status = Status.error then score - 40 else score
  let score := if stream.status = Status.offline then score - 50 else score
  max 0 (min 100 score)

/-- The function `calculateVideoScore` from monitor.js lines 25-33 (the
`width >= 1920` branch of the source adds 0 and is mirrored as such). -/
def calculateVideoScore (stream : Stream) : Int :=
  match stream.stats.video with
  | none => 50
  | some video =>
      let score : Int := 100
      let score := if jsStrFalsy video.codec then score - 20 else score
      let score := if video.width ≠ 0 ∧ video.width < 720 then score - 10 else score
      let score := if video.width ≠ 0 ∧ video.width ≥ 1920 then score + 0 else score
      max 0 (min 100 score)

/-- The function `calculateAudioScore` from monitor.js lines 35-42. -/
def calculateAudioScore (stream : Stream) : Int :=
  match stream.stats.audio with
  | none => 50
  | some audio =>
      let score : Int := 100
      let score := if jsStrFalsy audio.codec then score - 20 else score
      let score := if audio.sampleRate ≠ 0 ∧ audio.sampleRate < 44100 then score - 10 else score
      max 0 (min 100 score)

/-- The function `clamp(x, 0, 100)` as written in the spec's scoring formulas. -/
def clampScore (x : Int) : Int :=
  max 0 (min 100 x)

/-- The health-score formula exactly as the spec states it:
`clamp(100 − 30·isStale − min(jumps·5,20) − min(resets·10,30) −
min(totalErrors·2,20) − 40·[status==error] − 50·[status==offline], 0, 100)`. -/
def specHealthScore (stream : Stream) : Int :=
  clampScore (100
    - (if stream.health.isStale then 30 else 0)
    - min ((stream.health.sequenceJumps : Int) * 5) 20
    - min ((stream.health.sequenceResets : Int) * 10) 30
    - min ((stream.health.totalErrors : Int) * 2) 20
    - (if stream.status = Status.error then 40 else 0)
    - (if stream.status = Status.offline then 50 else 0))

/-- The video-score formula as the claim states it: 50 with no probed video
info, else `100 − 20·[no codec] − 10·[width<720]` clamped to [0,100]. -/
def specVideoScore (stream : Stream) : Int :=
  match stream.stats.video with
  | none => 50
  | some video =>
      clampScore (100
        - (if jsStrFalsy video.codec then 20 else 0)
        - (if video.width < 720 then 10 else 0))

/-- The audio-score formula as the claim states it: 50 with no probed audio
info, else `100 − 20·[no codec] − 10·[sampleRate<44100]` clamped. -/
def specAudioScore (stream : Stream) : Int :=
  match stream.stats.audio with
  | none => 50
  | some audio =>
      clampScore (100
        - (if jsStrFalsy audio.codec then 20 else 0)
        - (if audio.sampleRate < 44100 then 10 else 0))

/-- The claim's video formula amended: the 10-point deduction applies only
when the width is reported and nonzero (the code's JS-truthiness guard
`video.width && video.width < 720`). -/
def specVideoScoreAmended (stream : Stream) : Int :=
  match stream.stats.video with
  | none => 50
  | some video =>
      clampScore (100
        - (if jsStrFalsy video.codec then 20 else 0)
        - (if video.width ≠ 0 ∧ video.width < 720 then 10 else 0))

/-- The claim's audio formula amended: the 10-point deduction applies only
when the sample rate is reported and nonzero (the code's guard
`audio.sampleRate && audio.sampleRate < 44100`). -/
def specAudioScoreAmended (stream : Stream) : Int :=
  match stream.stats.audio with
  | none => 50
  | some audio =>
      clampScore (100
        - (if jsStrFalsy audio.codec then 20 else 0)
        - (if audio.sampleRate ≠ 0 ∧ audio.sampleRate < 44100 then 10 else 0))

/-- One parsed playlist entry of a master manifest (m3u8-parser
`manifest.playlists[i]` as consumed by monitor.js lines 107-118: `uri`,
`attributes.BANDWIDTH`, `attributes.RESOLUTION`). -/
structure Variant where
  uri : String
  bandwidth : Option Nat
  resolution : Option (Nat × Nat)
deriving DecidableEq, Repr

/-- One parsed media segment (`manifest.segments[i]`): uri and the
discontinuity flag. -/
structure Segment where
  uri : String
  discontinuity : Bool
deriving DecidableEq, Repr

/-- The structured manifest returned by `fetchManifest` (the external
m3u8-parser output as consumed by monitor.js). -/
structure Manifest where
  playlists : List Variant
  segments : List Segment
  mediaSequence : Option Int
  targetDuration : Option Int
  playlistType : Option String
  discontinuitySequence : Option Int
deriving DecidableEq, Repr

/-- Outcome of one `fetchManifest` call: either the parsed manifest or a
thrown error with `err.message` and the optional HTTP status
`err.response?.status`. -/
inductive FetchResult
  | failure (code : Option Int) (message : String)
  | success (manifest : Manifest)
deriving DecidableEq, Repr

/-- The two fetches a single `checkStream` cycle can perform: the fetch of
`stream.url` and, when that yields a master playlist, the fetch of the
first variant's url.  `variantResult` is consulted only in the latter
case. -/
structure CycleFetch where
  masterResult : FetchResult
  variantResult : FetchResult
deriving DecidableEq, Repr

/-- Result of one `checkStream(stream, io)` call: the stream record as
saved, the transient poll state afterwards, whether `streamState.set` ran
(`stateSaved`), whether `io.emit('stream:update', ...)` ran
(`updateEmitted`), whether the `MetricsHistory.create` step was reached
(`metricsRecorded`), and whether `processSegment` was invoked
(`segmentProcessed`). -/
structure CheckOutput where
  stream : Stream
  state : PollState
  stateSaved : Bool
  updateEmitted : Bool
  metricsRecorded : Bool
  segmentProcessed : Bool
deriving DecidableEq, Repr

/-- The staleness check, monitor.js lines 145-163.  Returns the updated
stream and poll state. -/
def staleCheck (stream : Stream) (state : PollState) (currentSequence now : Int) :
    Stream × PollState :=
  if currentSequence = state.lastMediaSequence then
    let state := { state with consecutiveStales := state.consecutiveStales + 1 }
    let stream := { stream with health := { stream.health with
        timeSinceLastUpdate := now - state.lastPollTime } }
    let stream :=
      if stream.health.timeSinceLastUpdate > stream.health.staleThreshold then
        let stream := { stream with
          health := { stream.health with isStale := true },
          status := Status.stale }
        addError stream ErrorType.STALE_MANIFEST
          ("Playlist stale for " ++ toString stream.health.timeSinceLastUpdate ++ "ms")
          "VIDEO" none
      else stream
    (stream, state)
  else
    let stream := { stream with
      health := { stream.health with
        isStale := false,
        lastManifestUpdate := some now,
        timeSinceLastUpdate := 0 },
      status := Status.online }
    let state := { state with consecutiveStales := 0 }
    (stream, state)

/-- The jump/reset sequence checks, monitor.js lines 165-183.  Reads the
poll state as it was before this cycle's update. -/
def sequenceChecks (stream : Stream) (state : PollState) (currentSequence : Int) : Stream :=
  if state.lastMediaSequence ≠ -1 then
    let expectedSequence := state.lastMediaSequence + 1
    let stream :=
      if currentSequence > expectedSequence then
        let gap := currentSequence - expectedSequence
        let s := { stream with health := { stream.health with
            sequenceJumps := stream.health.sequenceJumps + 1 } }
        addError s ErrorType.MEDIA_SEQUENCE
          ("Sequence jumped from " ++ toString state.lastMediaSequence ++ " to "
            ++ toString currentSequence ++ " (gap: " ++ toString gap ++ ")")
          "VIDEO" none
      else stream
    if currentSequence < state.lastMediaSequence then
      let s := { stream with health := { stream.health with
          sequenceResets := stream.health.sequenceResets + 1 } }
      addError s ErrorType.MEDIA_SEQUENCE
        ("Sequence reset from " ++ toString state.lastMediaSequence ++ " to "
          ++ toString currentSequence)
        "VIDEO" none
    else stream
  else stream

/-- The discontinuity bookkeeping, monitor.js lines 185-196. -/
def discontinuityCheck (stream : Stream) (media : Manifest) : Stream :=
  let currentDiscontinuityCount := (media.segments.filter (fun seg => seg.discontinuity)).length
  let stream :=
    match media.discontinuitySequence with
    | some ds =>
        if stream.health.discontinuitySequence ≠ ds then
          { stream with health := { stream.health with discontinuitySequence := ds } }
        else stream
    | none => stream
  { stream with health := { stream.health with
      discontinuityCount := currentDiscontinuityCount } }

/-- Analysis of the fetched media playlist: monitor.js lines 132-254
(empty-playlist short-circuit, staleness check, sequence checks,
discontinuity check, health update, poll-state update, `processSegment`
trigger, save, metrics snapshot, update event). -/
def analyzeMediaPlaylist (stream : Stream) (state : PollState) (media : Manifest)
    (now : Int) : CheckOutput :=
  if media.segments.length = 0 then
    let s := addError stream ErrorType.PLAYLIST_CONTENT ("Playlist has no segments")
      "VIDEO" none
    { stream := { s with status := Status.error }, state := state,
      stateSaved := false, updateEmitted := true,
      metricsRecorded := false, segmentProcessed := false }
  else
    let currentSequence := jsNumOr media.mediaSequence 0
    let segmentCount := media.segments.length
    let targetDuration := jsNumOr media.targetDuration 0
    let sp := staleCheck stream state currentSequence now
    let stream := sp.1
    let state := sp.2
    let stream := sequenceChecks stream state currentSequence
    let stream := discontinuityCheck stream media
    let stream := { stream with health := { stream.health with
        previousMediaSequence := state.lastMediaSequence,
        mediaSequence := currentSequence,
        segmentCount := segmentCount,
        targetDuration := targetDuration,
        playlistType := jsStrOr media.playlistType ("LIVE") } }
    let state := { state with
        lastMediaSequence := currentSequence,
        lastPollTime := now }
    let stream := { stream with lastChecked := now }
    { stream := stream, state := state, stateSaved := true, updateEmitted := true,
      metricsRecorded := true, segmentProcessed := true }

/-- The bandwidth/resolution updates taken from the first variant of a
master playlist (monitor.js lines 112-118), with the JS truthiness guards
(`if (variant.attributes?.BANDWIDTH)`, `if (variant.attributes?.RESOLUTION)`). -/
def applyVariantAttributes (stream : Stream) (variant : Variant) : Stream :=
  let stream :=
    match variant.bandwidth with
    | some bw =>
        if bw ≠ 0 then
          { stream with stats := { stream.stats with bandwidth := some bw } }
        else stream
    | none => stream
  match variant.resolution with
  | some wh =>
      { stream with stats := { stream.stats with
          resolution := some (toString wh.1 ++ "x" ++ toString wh.2) } }
  | none => stream

/-- One `checkStream(stream, io)` cycle, monitor.js lines 82-263.  The two
fetches are inputs (the engine treats the fetcher as a black box); the
master-playlist indirection (lines 106-130) follows the first variant and
records its bandwidth/resolution, mirroring the JS truthiness guards. -/
def checkStream (stream : Stream) (state : PollState) (fetch : CycleFetch)
    (now : Int) : CheckOutput :=
  match fetch.masterResult with
  | FetchResult.failure code msg =>
      let s := addError stream ErrorType.MANIFEST_RETRIEVAL
        ("Failed to fetch manifest: " ++ msg) "MASTER" code
      { stream := { s with status := Status.error }, state := state,
        stateSaved := false, updateEmitted := true,
        metricsRecorded := false, segmentProcessed := false }
  | FetchResult.success master =>
      match master.playlists with
      | [] => analyzeMediaPlaylist stream state master now
      | variant :: _ =>
          let stream := applyVariantAttributes stream variant
          match fetch.variantResult with
          | FetchResult.failure code msg =>
              let s := addError stream ErrorType.MANIFEST_RETRIEVAL
                ("Failed to fetch variant: " ++ msg) "VIDEO" code
              { stream := { s with status := Status.error }, state := state,
                stateSaved := false, updateEmitted := true,
                metricsRecorded := false, segmentProcessed := false }
          | FetchResult.success media => analyzeMediaPlaylist stream state media now

/-- The `pre('save')` hook of the Stream schema (models/Stream.js lines
91-96): `if (this.streamErrors.length > 1000) this.streamErrors =
this.streamErrors.slice(-1000)`. -/
def capStreamErrors (errors : List StreamError) : List StreamError :=
  if errors.length > 1000 then errors.drop (errors.length - 1000) else errors

/-- Saving the stream: mongoose runs the `pre('save')` cap hook on the error
ledger before persisting. -/
def saveStream (stream : Stream) : Stream :=
  { stream with streamErrors := capStreamErrors stream.streamErrors }

/-- The loop `monitorLoop` (monitor.js lines 265-271): every stream found is
checked, strictly in order; `checkStream` catches all of its own errors, so
each stream's cycle runs regardless of earlier streams' outcomes.  Each
entry carries the per-stream inputs of its cycle. -/
def monitorLoop : List (Stream × PollState × CycleFetch × Int) → List CheckOutput
  | [] => []
  | x :: rest => checkStream x.1 x.2.1 x.2.2.1 x.2.2.2 :: monitorLoop rest

/-- The `metadata.format` object as consumed by processor.js: the raw ffprobe fields
whose parsed values flow into `stats.container` (`parseFloat(duration)`,
`parseInt(size)`, `parseInt(bit_rate)`, all with `|| 0`).  Parsed values
are modelled directly; `none` is an absent/unparseable field (parseFloat /
parseInt yields NaN, which `|| 0` turns into 0). -/
structure ProbeFormat where
  format_name : Option String
  duration : Option Rat
  size : Option Nat
  bit_rate : Option Nat
deriving DecidableEq, Repr

/-- One entry of `metadata.streams` as consumed by processor.js.
`frameRate` models `video.r_frame_rate ? eval(video.r_frame_rate) : 0`: the
evaluated rational when the field is present and truthy, `none` otherwise.
`width`/`height`/`channels` are JS numbers (0 when absent). -/
structure ProbeStreamInfo where
  codec_type : String
  codec_name : Option String
  profile : Option String
  level : Option Int
  width : Nat
  height : Nat
  pix_fmt : Option String
  color_space : Option String
  color_primaries : Option String
  frameRate : Option Rat
  bit_rate : Option Nat
  channels : Nat
  sample_rate : Option Nat
deriving DecidableEq, Repr

/-- The ffprobe metadata handed to the probe-success callback. -/
structure ProbeMetadata where
  format : Option ProbeFormat
  streams : List ProbeStreamInfo
deriving DecidableEq, Repr

/-- The payload of the `stream:signal` event emitted by processor.js (the
stream id is not modelled). -/
structure SignalEvent where
  timestamp : Int
  video : Rat
  audio : Rat
  videoBitrate : Rat
  audioBitrate : Rat
  fps : Rat
deriving DecidableEq, Repr

/-- The stats-updating part of the probe-success callback (processor.js
lines 13-56): container stats, then the first video stream's
resolution/fps/stats, then the first audio stream's stats.  Returns the
updated stream together with the `videoBitrate` and `audioBitrate` locals
(initialised to 0 at the top of the callback). -/
def probeCompute (stream : Stream) (meta : ProbeMetadata) : Stream × Rat × Rat :=
  let stream :=
    match meta.format with
    | some f =>
        { stream with stats := { stream.stats with container := some {
            formatName := f.format_name,
            duration := f.duration.getD 0,
            size := f.size.getD 0,
            bitRate := f.bit_rate.getD 0 } } }
    | none => stream
  let videoBitrate : Rat := 0
  let audioBitrate : Rat := 0
  let formatBitrateFallback : Rat :=
    match meta.format with
    | some f => ((f.bit_rate.getD 0 : Nat) : Rat) * 85 / 100
    | none => 0
  let vres :=
    match meta.streams.find? (fun si => si.codec_type == "video") with
    | some video =>
        let fps : Rat := match video.frameRate with | some fr => fr | none => 0
        let vb : Rat := jsRatOr ((video.bit_rate.getD 0 : Nat) : Rat)
          (jsRatOr formatBitrateFallback 0)
        ({ stream with stats := { stream.stats with
            resolution := some (toString video.width ++ "x" ++ toString video.height),
            fps := some fps,
            video := some {
              codec := video.codec_name,
              profile := video.profile,
              level := video.level.map toString,
              width := video.width,
              height := video.height,
              pixFmt := video.pix_fmt,
              colorSpace := jsStrOr video.color_space
                (jsStrOr video.color_primaries ("unknown")),
              bitRate := vb } } }, vb)
    | none => (stream, videoBitrate)
  let stream := vres.1
  let videoBitrate := vres.2
  let ares :=
    match meta.streams.find? (fun si => si.codec_type == "audio") with
    | some audio =>
        let ab : Rat := jsRatOr ((audio.bit_rate.getD 0 : Nat) : Rat) 128000
        ({ stream with stats := { stream.stats with
            audio := some {
              codec := audio.codec_name,
              channels := audio.channels,
              sampleRate := audio.sample_rate.getD 0,
              bitRate := ab } } }, ab)
    | none => (stream, audioBitrate)
  (ares.1, videoBitrate, ares.2)

/-- The `stream:signal` payload built by the probe-success callback
(processor.js lines 58-75): normalized 0-100 levels from the bitrates, plus
the random `variation = (Math.random() - 0.5) * 10` added to both levels.
`r` is the `Math.random()` draw. -/
def probeSignal (videoBitrate audioBitrate fps : Rat) (r : Rat) (t : Int) : SignalEvent :=
  let videoLevel := min 100 (max 0 (videoBitrate / 5000000 * 100))
  let audioLevel := min 100 (max 0 (audioBitrate / 320000 * 100))
  let variation := (r - 1/2) * 10
  { timestamp := t,
    video := max 0 (min 100 (videoLevel + variation)),
    audio := max 0 (min 100 (audioLevel + variation)),
    videoBitrate := videoBitrate,
    audioBitrate := audioBitrate,
    fps := fps }

/-- The whole probe-success callback: updates the stored stats, then emits
one `stream:signal` event whose levels carry the random jitter
(processor.js lines 13-84).  Returns the stream as saved and the emitted
event. -/
def probeHandler (stream : Stream) (meta : ProbeMetadata) (r : Rat) (t : Int) :
    Stream × SignalEvent :=
  let c := probeCompute stream meta
  (c.1, probeSignal c.2.1 c.2.2 (c.1.stats.fps.getD 0) r t)

/-- The thumbnail-success handler (processor.js `.on('end')`): stores the
new sprite reference on the stream and saves; nothing else changes. -/
def spriteHandler (stream : Stream) (image : String) : Stream :=
  { stream with thumbnail := some image }

/-- Number of external tool invocations `processSegment` starts immediately
upon being called: `ffmpeg.ffprobe(segmentUrl, ...)` (processor.js line 7)
and the ffmpeg thumbnail command (`.save(...)`, processor.js end).  Both
are fire-and-forget: no pool, semaphore, queue or counter gates them
anywhere in the repository. -/
def processSegmentExternalLaunches : Nat := 2

/-- In-flight external invocations after `processSegment` has been
submitted for `n` streams and none of the invocations has completed yet:
every submission starts its two invocations immediately. -/
def inFlightAfterSubmissions (n : Nat) : Nat :=
  n * processSegmentExternalLaunches

end HLSMonitor

namespace HLSMonitor

set_option maxHeartbeats 4000000 in
/-- C3: the health scorer computes exactly the spec's clamped formula, and
the result always lies in [0, 100]. -/
theorem calculateHealthScore_eq_spec_and_bounded (s : Stream) :
    calculateHealthScore s = specHealthScore s ∧
    0 ≤ calculateHealthScore s ∧ calculateHealthScore s ≤ 100 := by
  simp only [calculateHealthScore, specHealthScore, clampScore]
  refine ⟨?_, ?_, ?_⟩ <;> (split_ifs <;> omega)

/-- The Stream schema's `health` defaults (models/Stream.js). -/
def defaultHealth : Health :=
  { isStale := false, lastManifestUpdate := none, timeSinceLastUpdate := 0,
    staleThreshold := 7000, mediaSequence := -1, previousMediaSequence := -1,
    sequenceJumps := 0, sequenceResets := 0, discontinuitySequence := 0,
    discontinuityCount := 0, segmentCount := 0, targetDuration := 0,
    playlistType := "LIVE", totalErrors := 0, timeSinceLastError := 0 }

/-- An empty `stats` block (no probe has run yet). -/
def defaultStats : Stats :=
  { bandwidth := none, resolution := none, fps := none, video := none,
    audio := none, container := none }

/-- A concrete freshly-created stream record with the schema defaults, used
to instantiate theorems on concrete inputs. -/
def demoStream : Stream :=
  { name := "demo", url := "http://example.com/master.m3u8",
    status := Status.offline, health := defaultHealth, stats := defaultStats,
    streamErrors := [], thumbnail := none, lastChecked := 0 }

/-- A stream whose probed audio reported an unparseable sample rate:
processor.js stores `sampleRate: parseInt(audio.sample_rate) || 0`, so 0 is
a reachable stored value. -/
def zeroRateAudioStream : Stream :=
  { demoStream with stats := { demoStream.stats with
      audio := some { codec := some ("aac"), channels := 2, sampleRate := 0,
                      bitRate := 128000 } } }

/-- C7 counterexample: on a stream whose probed audio has a codec but a
stored sampleRate of 0 (reachable via processor.js's `parseInt(...) || 0`),
the code's `calculateAudioScore` returns 100, while the claim's formula
`100 − 20·[no codec] − 10·[sampleRate<44100]` gives 90: the code's
JS-truthiness guard skips the deduction for an absent/zero rate. -/
theorem audioScore_claim_counterexample :
    calculateAudioScore zeroRateAudioStream = 100 ∧
    specAudioScore zeroRateAudioStream = 90 ∧
    calculateAudioScore zeroRateAudioStream ≠ specAudioScore zeroRateAudioStream := by
  refine ⟨by decide, by decide, by decide⟩

/-- C7 amended: the scores are 50 with no probed info and otherwise apply
the 20-point codec deduction and the 10-point deduction only when the
width / sampleRate is reported and nonzero (`width && width < 720`,
`sampleRate && sampleRate < 44100`), clamped to [0,100]; both scores always
lie in [0,100]. -/
theorem videoAudioScore_amended (s : Stream) :
    calculateVideoScore s = specVideoScoreAmended s ∧
    calculateAudioScore s = specAudioScoreAmended s ∧
    0 ≤ calculateVideoScore s ∧ calculateVideoScore s ≤ 100 ∧
    0 ≤ calculateAudioScore s ∧ calculateAudioScore s ≤ 100 := by
  rcases hv : s.stats.video with _ | v <;> rcases ha : s.stats.audio with _ | a <;>
    simp only [calculateVideoScore, calculateAudioScore, specVideoScoreAmended,
      specAudioScoreAmended, clampScore, hv, ha] <;>
    refine ⟨?_, ?_, ?_, ?_, ?_, ?_⟩ <;>
    first
      | trivial
      | omega
      | (split_ifs <;> omega)

/-- C8: the random jitter drawn in the probe-success handler influences
only the emitted signal: two executions of the handler on the same probe
metadata that differ only in the random draw store identical stream
records, hence identical container, video, audio, resolution, fps and
bitrate stats. -/
theorem probeJitter_only_affects_signal (s : Stream) (meta : ProbeMetadata)
    (r₁ r₂ : Rat) (t : Int) :
    (probeHandler s meta r₁ t).1 = (probeHandler s meta r₂ t).1 ∧
    (probeHandler s meta r₁ t).1.stats = (probeHandler s meta r₂ t).1.stats :=
  ⟨rfl, rfl⟩

/-- C9 counterexample: submitting probe/thumbnail work for 10 streams at
once starts 20 external invocations immediately — the claimed bound of 4
simultaneous invocations is exceeded and nothing queues the excess. -/
theorem concurrencyBound_counterexample :
    inFlightAfterSubmissions 10 = 20 ∧ ¬ inFlightAfterSubmissions 10 ≤ 4 := by
  decide

/-- C9 amended: the code enforces no concurrency bound — `processSegment`
starts its probe and its thumbnail invocation immediately on every call, so
n simultaneous submissions put 2·n external invocations in flight. -/
theorem concurrencyBound_amended (n : Nat) :
    inFlightAfterSubmissions n = 2 * n := by
  simp only [inFlightAfterSubmissions, processSegmentExternalLaunches]
  omega

/-- A concrete ledger entry used to build a full error ledger. -/
def dummyError : StreamError :=
  mkStreamError ErrorType.PLAYLIST_CONTENT ("VIDEO") "unknown"
    "Playlist has no segments" none

/-- A stream whose error ledger already holds exactly 1000 entries. -/
def ledgerFullStream : Stream :=
  { demoStream with streamErrors := List.replicate 1000 dummyError }

/-- C4: with the ledger at 1000 entries, appending one more error and
saving leaves exactly 1000 entries — the newly appended entry retained as
newest, the oldest dropped; and in general the save hook leaves at most the
1000 most recent entries in append order (a suffix of the ledger). -/
theorem errorLedger_cap (s : Stream) (h : s.streamErrors.length = 1000)
    (et : ErrorType) (details mt : String) (code : Option Int)
    (l : List StreamError) :
    (saveStream (addError s et details mt code)).streamErrors
      = s.streamErrors.drop 1 ++ [mkStreamError et mt (variantOf s) details code] ∧
    (saveStream (addError s et details mt code)).streamErrors.length = 1000 ∧
    (capStreamErrors l).length ≤ 1000 ∧
    capStreamErrors l = l.drop (l.length - 1000) := by
  have hdrop : ∀ (l' : List StreamError) (e : StreamError), l' ≠ [] →
      (l' ++ [e]).drop 1 = l'.drop 1 ++ [e] := by
    intro l' e hl'
    cases l' with
    | nil => exact absurd rfl hl'
    | cons a t => simp
  have hne : s.streamErrors ≠ [] := by
    intro hnil
    rw [hnil] at h
    simp at h
  have hmain : (saveStream (addError s et details mt code)).streamErrors
      = s.streamErrors.drop 1 ++ [mkStreamError et mt (variantOf s) details code] := by
    have hlen1 : (s.streamErrors
        ++ [mkStreamError et mt (variantOf s) details code]).length = 1001 := by
      simp [h]
    simp only [saveStream, addError, capStreamErrors]
    rw [hlen1, if_pos (by omega : (1001 : Nat) > 1000),
      (by norm_num : (1001 : Nat) - 1000 = 1)]
    exact hdrop _ _ hne
  refine ⟨hmain, ?_, ?_, ?_⟩
  · rw [hmain]
    have hdl : (s.streamErrors.drop 1).length = 999 := by
      rw [List.length_drop, h]
    simp [hdl, h]
  · by_cases hlen : l.length > 1000
    · simp only [capStreamErrors, if_pos hlen, List.length_drop]
      omega
    · simp only [capStreamErrors, if_neg hlen]
      omega
  · by_cases hlen : l.length > 1000
    · simp only [capStreamErrors, if_pos hlen]
    · simp only [capStreamErrors, if_neg hlen]
      have h0 : l.length - 1000 = 0 := by omega
      rw [h0, List.drop_zero]

/-- C4 witness: the cap theorem instantiated on a concrete stream whose
ledger holds exactly 1000 entries. -/
theorem errorLedger_cap_witness :
    ledgerFullStream.streamErrors.length = 1000 ∧
    ((saveStream (addError ledgerFullStream ErrorType.PLAYLIST_SIZE ("overflow")
        "VIDEO" none)).streamErrors
      = ledgerFullStream.streamErrors.drop 1
        ++ [mkStreamError ErrorType.PLAYLIST_SIZE ("VIDEO") (variantOf ledgerFullStream)
              "overflow" none] ∧
     (saveStream (addError ledgerFullStream ErrorType.PLAYLIST_SIZE ("overflow")
        "VIDEO" none)).streamErrors.length = 1000 ∧
     (capStreamErrors ([] : List StreamError)).length ≤ 1000 ∧
     capStreamErrors ([] : List StreamError)
       = ([] : List StreamError).drop (([] : List StreamError).length - 1000)) :=
  have hlen : ledgerFullStream.streamErrors.length = 1000 := by
    show (List.replicate 1000 dummyError).length = 1000
    rw [List.length_replicate]
  ⟨hlen, errorLedger_cap ledgerFullStream hlen ErrorType.PLAYLIST_SIZE ("overflow")
    "VIDEO" none []⟩

/-- Number of MEDIA_SEQUENCE entries in an error ledger. -/
def countMediaSequenceErrors (errors : List StreamError) : Nat :=
  (errors.filter (fun e => e.errorType == ErrorType.MEDIA_SEQUENCE)).length

/-- Number of STALE_MANIFEST entries in an error ledger. -/
def countStaleErrors (errors : List StreamError) : Nat :=
  (errors.filter (fun e => e.errorType == ErrorType.STALE_MANIFEST)).length

/-- The details string of a jump error (monitor.js lines 173-174), with
gap = current − (previous + 1). -/
def jumpErrorDetails (prev current : Int) : String :=
  "Sequence jumped from " ++ toString prev ++ " to " ++ toString current
    ++ " (gap: " ++ toString (current - (prev + 1)) ++ ")"

/-- The details string of a reset error (monitor.js lines 180-181). -/
def resetErrorDetails (prev current : Int) : String :=
  "Sequence reset from " ++ toString prev ++ " to " ++ toString current

theorem countMediaSequenceErrors_append (l : List StreamError) (e : StreamError) :
    countMediaSequenceErrors (l ++ [e])
      = countMediaSequenceErrors l
        + (if e.errorType = ErrorType.MEDIA_SEQUENCE then 1 else 0) := by
  simp only [countMediaSequenceErrors, List.filter_append, List.length_append,
    List.filter_cons, List.filter_nil]
  by_cases h : e.errorType = ErrorType.MEDIA_SEQUENCE <;> simp [h]

theorem countStaleErrors_append (l : List StreamError) (e : StreamError) :
    countStaleErrors (l ++ [e])
      = countStaleErrors l
        + (if e.errorType = ErrorType.STALE_MANIFEST then 1 else 0) := by
  simp only [countStaleErrors, List.filter_append, List.length_append,
    List.filter_cons, List.filter_nil]
  by_cases h : e.errorType = ErrorType.STALE_MANIFEST <;> simp [h]

theorem staleCheck_ne (st : PollState) (c : Int)
    (h : c ≠ st.lastMediaSequence) (s : Stream) (n : Int) :
    staleCheck s st c n
      = ({ s with
            health := { s.health with
              isStale := false,
              lastManifestUpdate := some n,
              timeSinceLastUpdate := 0 },
            status := Status.online },
         { st with consecutiveStales := 0 }) := by
  simp only [staleCheck, if_neg h]

theorem staleCheck_stale_hit (s : Stream) (st : PollState) (c n : Int)
    (h : c = st.lastMediaSequence)
    (hthr : n - st.lastPollTime > s.health.staleThreshold) :
    staleCheck s st c n
      = (addError
          { s with
              health := { s.health with
                timeSinceLastUpdate := n - st.lastPollTime,
                isStale := true },
              status := Status.stale }
          ErrorType.STALE_MANIFEST
          ("Playlist stale for " ++ toString (n - st.lastPollTime) ++ "ms")
          "VIDEO" none,
         { st with consecutiveStales := st.consecutiveStales + 1 }) := by
  simp only [staleCheck, if_pos h]
  simp only [if_pos hthr]

theorem staleCheck_stale_miss (s : Stream) (st : PollState) (c n : Int)
    (h : c = st.lastMediaSequence)
    (hthr : ¬ n - st.lastPollTime > s.health.staleThreshold) :
    staleCheck s st c n
      = ({ s with health := { s.health with
            timeSinceLastUpdate := n - st.lastPollTime } },
         { st with consecutiveStales := st.consecutiveStales + 1 }) := by
  simp only [staleCheck, if_pos h]
  simp only [if_neg hthr]

theorem sequenceChecks_initial (st : PollState)
    (h : st.lastMediaSequence = -1) (s : Stream) (c : Int) :
    sequenceChecks s st c = s := by
  simp [sequenceChecks, h]

theorem sequenceChecks_noop (st : PollState) (c : Int)
    (h1 : ¬ c > st.lastMediaSequence + 1) (h2 : ¬ c < st.lastMediaSequence)
    (s : Stream) :
    sequenceChecks s st c = s := by
  simp only [sequenceChecks]
  split_ifs <;> first | rfl | (exfalso; omega)

theorem sequenceChecks_jump (st : PollState) (c : Int)
    (h0 : st.lastMediaSequence ≠ -1) (h : c > st.lastMediaSequence + 1)
    (s : Stream) :
    sequenceChecks s st c
      = addError
          { s with health := { s.health with
              sequenceJumps := s.health.sequenceJumps + 1 } }
          ErrorType.MEDIA_SEQUENCE
          (jumpErrorDetails st.lastMediaSequence c) "VIDEO" none := by
  simp only [sequenceChecks, if_pos h0, if_pos h,
    if_neg (show ¬ c < st.lastMediaSequence by omega), jumpErrorDetails]

theorem sequenceChecks_reset (st : PollState) (c : Int)
    (h0 : st.lastMediaSequence ≠ -1) (h : c < st.lastMediaSequence)
    (s : Stream) :
    sequenceChecks s st c
      = addError
          { s with health := { s.health with
              sequenceResets := s.health.sequenceResets + 1 } }
          ErrorType.MEDIA_SEQUENCE
          (resetErrorDetails st.lastMediaSequence c) "VIDEO" none := by
  simp only [sequenceChecks, if_pos h0,
    if_neg (show ¬ c > st.lastMediaSequence + 1 by omega), if_pos h,
    resetErrorDetails]

theorem discontinuityCheck_status (s : Stream) (m : Manifest) :
    (discontinuityCheck s m).status = s.status := by
  simp only [discontinuityCheck]
  rcases m.discontinuitySequence with _ | ds <;> simp <;> split_ifs <;> simp

theorem discontinuityCheck_streamErrors (s : Stream) (m : Manifest) :
    (discontinuityCheck s m).streamErrors = s.streamErrors := by
  simp only [discontinuityCheck]
  rcases m.discontinuitySequence with _ | ds <;> simp <;> split_ifs <;> simp

theorem discontinuityCheck_stats (s : Stream) (m : Manifest) :
    (discontinuityCheck s m).stats = s.stats := by
  simp only [discontinuityCheck]
  rcases m.discontinuitySequence with _ | ds <;> simp <;> split_ifs <;> simp

theorem discontinuityCheck_jumps (s : Stream) (m : Manifest) :
    (discontinuityCheck s m).health.sequenceJumps = s.health.sequenceJumps := by
  simp only [discontinuityCheck]
  rcases m.discontinuitySequence with _ | ds <;> simp <;> split_ifs <;> simp

theorem discontinuityCheck_resets (s : Stream) (m : Manifest) :
    (discontinuityCheck s m).health.sequenceResets = s.health.sequenceResets := by
  simp only [discontinuityCheck]
  rcases m.discontinuitySequence with _ | ds <;> simp <;> split_ifs <;> simp

theorem discontinuityCheck_totalErrors (s : Stream) (m : Manifest) :
    (discontinuityCheck s m).health.totalErrors = s.health.totalErrors := by
  simp only [discontinuityCheck]
  rcases m.discontinuitySequence with _ | ds <;> simp <;> split_ifs <;> simp

theorem discontinuityCheck_threshold (s : Stream) (m : Manifest) :
    (discontinuityCheck s m).health.staleThreshold = s.health.staleThreshold := by
  simp only [discontinuityCheck]
  rcases m.discontinuitySequence with _ | ds <;> simp <;> split_ifs <;> simp

theorem discontinuityCheck_isStale (s : Stream) (m : Manifest) :
    (discontinuityCheck s m).health.isStale = s.health.isStale := by
  simp only [discontinuityCheck]
  rcases m.discontinuitySequence with _ | ds <;> simp <;> split_ifs <;> simp

theorem addError_streamErrors (s : Stream) (et : ErrorType) (d mt : String)
    (cd : Option Int) :
    (addError s et d mt cd).streamErrors
      = s.streamErrors ++ [mkStreamError et mt (variantOf s) d cd] := rfl

theorem addError_status (s : Stream) (et : ErrorType) (d mt : String)
    (cd : Option Int) : (addError s et d mt cd).status = s.status := rfl

theorem addError_stats (s : Stream) (et : ErrorType) (d mt : String)
    (cd : Option Int) : (addError s et d mt cd).stats = s.stats := rfl

theorem addError_jumps (s : Stream) (et : ErrorType) (d mt : String)
    (cd : Option Int) :
    (addError s et d mt cd).health.sequenceJumps = s.health.sequenceJumps := rfl

theorem addError_resets (s : Stream) (et : ErrorType) (d mt : String)
    (cd : Option Int) :
    (addError s et d mt cd).health.sequenceResets = s.health.sequenceResets := rfl

theorem addError_totalErrors (s : Stream) (et : ErrorType) (d mt : String)
    (cd : Option Int) :
    (addError s et d mt cd).health.totalErrors = s.health.totalErrors + 1 := rfl

theorem addError_threshold (s : Stream) (et : ErrorType) (d mt : String)
    (cd : Option Int) :
    (addError s et d mt cd).health.staleThreshold = s.health.staleThreshold := rfl

theorem addError_isStale (s : Stream) (et : ErrorType) (d mt : String)
    (cd : Option Int) :
    (addError s et d mt cd).health.isStale = s.health.isStale := rfl

theorem staleCheck_snd_last (s : Stream) (st : PollState) (c n : Int) :
    (staleCheck s st c n).2.lastMediaSequence = st.lastMediaSequence := by
  simp only [staleCheck]
  split_ifs <;> rfl

theorem staleCheck_snd_poll (s : Stream) (st : PollState) (c n : Int) :
    (staleCheck s st c n).2.lastPollTime = st.lastPollTime := by
  simp only [staleCheck]
  split_ifs <;> rfl

theorem staleCheck_fst_jumps (s : Stream) (st : PollState) (c n : Int) :
    (staleCheck s st c n).1.health.sequenceJumps = s.health.sequenceJumps := by
  simp only [staleCheck, addError]
  split_ifs <;> rfl

theorem staleCheck_fst_resets (s : Stream) (st : PollState) (c n : Int) :
    (staleCheck s st c n).1.health.sequenceResets = s.health.sequenceResets := by
  simp only [staleCheck, addError]
  split_ifs <;> rfl

theorem staleCheck_fst_stats (s : Stream) (st : PollState) (c n : Int) :
    (staleCheck s st c n).1.stats = s.stats := by
  simp only [staleCheck, addError]
  split_ifs <;> rfl

theorem staleCheck_fst_threshold (s : Stream) (st : PollState) (c n : Int) :
    (staleCheck s st c n).1.health.staleThreshold = s.health.staleThreshold := by
  simp only [staleCheck, addError]
  split_ifs <;> rfl

theorem staleCheck_fst_countMedia (s : Stream) (st : PollState) (c n : Int) :
    countMediaSequenceErrors (staleCheck s st c n).1.streamErrors
      = countMediaSequenceErrors s.streamErrors := by
  simp only [staleCheck, addError]
  split_ifs <;> simp [countMediaSequenceErrors_append, mkStreamError]

/-- A successful fetch of a media playlist (no master indirection) routes
`checkStream` straight into the media-playlist analysis. -/
theorem checkStream_media (s : Stream) (st : PollState) (vr : FetchResult)
    (m : Manifest) (now : Int) (hpl : m.playlists = []) :
    checkStream s st ⟨FetchResult.success m, vr⟩ now
      = analyzeMediaPlaylist s st m now := by
  simp only [checkStream, hpl]

theorem analyzeMedia_mediaSequence (s : Stream) (st : PollState) (m : Manifest)
    (now : Int) (hseg : ¬ m.segments.length = 0) :
    (analyzeMediaPlaylist s st m now).stream.health.mediaSequence
      = jsNumOr m.mediaSequence 0 := by
  simp only [analyzeMediaPlaylist, if_neg hseg]

/-- Scenario A helper: on the initial cycle (tracked last sequence −1) the
sequence checks are skipped entirely. -/
theorem analyzeMedia_initial (s : Stream) (st : PollState) (m : Manifest)
    (now : Int) (hseg : ¬ m.segments.length = 0)
    (h0 : st.lastMediaSequence = -1) :
    (analyzeMediaPlaylist s st m now).stream.health.previousMediaSequence = -1 ∧
    (analyzeMediaPlaylist s st m now).stream.health.mediaSequence
      = jsNumOr m.mediaSequence 0 ∧
    (analyzeMediaPlaylist s st m now).stream.health.sequenceJumps
      = s.health.sequenceJumps ∧
    (analyzeMediaPlaylist s st m now).stream.health.sequenceResets
      = s.health.sequenceResets ∧
    countMediaSequenceErrors (analyzeMediaPlaylist s st m now).stream.streamErrors
      = countMediaSequenceErrors s.streamErrors := by
  have hsc2 : (staleCheck s st (jsNumOr m.mediaSequence 0) now).2.lastMediaSequence
      = -1 := by
    rw [staleCheck_snd_last, h0]
  simp only [analyzeMediaPlaylist, if_neg hseg, sequenceChecks_initial _ hsc2,
    discontinuityCheck_jumps, discontinuityCheck_resets,
    discontinuityCheck_streamErrors, staleCheck_snd_last, h0,
    staleCheck_fst_jumps, staleCheck_fst_resets, staleCheck_fst_countMedia]
  exact ⟨trivial, trivial, trivial, trivial, trivial⟩

/-- Scenario B helper: a jump (current > last+1 on a non-initial cycle)
increments sequenceJumps once and appends exactly one MEDIA_SEQUENCE error
citing previous, current and the gap. -/
theorem analyzeMedia_jump (s : Stream) (st : PollState) (m : Manifest)
    (now : Int) (hseg : ¬ m.segments.length = 0)
    (h0 : st.lastMediaSequence ≠ -1)
    (hj : jsNumOr m.mediaSequence 0 > st.lastMediaSequence + 1) :
    (analyzeMediaPlaylist s st m now).stream.health.sequenceJumps
      = s.health.sequenceJumps + 1 ∧
    (analyzeMediaPlaylist s st m now).stream.health.sequenceResets
      = s.health.sequenceResets ∧
    (analyzeMediaPlaylist s st m now).stream.streamErrors
      = s.streamErrors
        ++ [mkStreamError ErrorType.MEDIA_SEQUENCE ("VIDEO") (variantOf s)
              (jumpErrorDetails st.lastMediaSequence (jsNumOr m.mediaSequence 0))
              none] := by
  have hc : jsNumOr m.mediaSequence 0 ≠ st.lastMediaSequence := by omega
  simp only [analyzeMediaPlaylist, if_neg hseg, staleCheck_ne _ _ hc,
    sequenceChecks_jump { st with consecutiveStales := 0 }
      (jsNumOr m.mediaSequence 0) h0 hj,
    discontinuityCheck_jumps, discontinuityCheck_resets,
    discontinuityCheck_streamErrors, addError_jumps, addError_resets,
    addError_streamErrors, variantOf]
  exact ⟨trivial, trivial, trivial⟩

/-- Scenario C helper: a reset (current < last on a non-initial cycle)
increments sequenceResets once and appends exactly one MEDIA_SEQUENCE error
referencing the reset. -/
theorem analyzeMedia_reset (s : Stream) (st : PollState) (m : Manifest)
    (now : Int) (hseg : ¬ m.segments.length = 0)
    (h0 : st.lastMediaSequence ≠ -1)
    (hr : jsNumOr m.mediaSequence 0 < st.lastMediaSequence) :
    (analyzeMediaPlaylist s st m now).stream.health.sequenceJumps
      = s.health.sequenceJumps ∧
    (analyzeMediaPlaylist s st m now).stream.health.sequenceResets
      = s.health.sequenceResets + 1 ∧
    (analyzeMediaPlaylist s st m now).stream.streamErrors
      = s.streamErrors
        ++ [mkStreamError ErrorType.MEDIA_SEQUENCE ("VIDEO") (variantOf s)
              (resetErrorDetails st.lastMediaSequence (jsNumOr m.mediaSequence 0))
              none] := by
  have hc : jsNumOr m.mediaSequence 0 ≠ st.lastMediaSequence := by omega
  simp only [analyzeMediaPlaylist, if_neg hseg, staleCheck_ne _ _ hc,
    sequenceChecks_reset { st with consecutiveStales := 0 }
      (jsNumOr m.mediaSequence 0) h0 hr,
    discontinuityCheck_jumps, discontinuityCheck_resets,
    discontinuityCheck_streamErrors, addError_jumps, addError_resets,
    addError_streamErrors, variantOf]
  exact ⟨trivial, trivial, trivial⟩

/-- Neither-jump-nor-reset helper: the sequence counters are untouched. -/
theorem analyzeMedia_seq_unchanged (s : Stream) (st : PollState) (m : Manifest)
    (now : Int) (hseg : ¬ m.segments.length = 0)
    (h1 : ¬ jsNumOr m.mediaSequence 0 > st.lastMediaSequence + 1)
    (h2 : ¬ jsNumOr m.mediaSequence 0 < st.lastMediaSequence) :
    (analyzeMediaPlaylist s st m now).stream.health.sequenceJumps
      = s.health.sequenceJumps ∧
    (analyzeMediaPlaylist s st m now).stream.health.sequenceResets
      = s.health.sequenceResets := by
  have hsn : ∀ st' : PollState, st'.lastMediaSequence = st.lastMediaSequence →
      sequenceChecks (staleCheck s st (jsNumOr m.mediaSequence 0) now).1 st'
        (jsNumOr m.mediaSequence 0)
      = (staleCheck s st (jsNumOr m.mediaSequence 0) now).1 := by
    intro st' hst'
    exact sequenceChecks_noop st' (jsNumOr m.mediaSequence 0)
      (by rw [hst']; exact h1) (by rw [hst']; exact h2) _
  simp only [analyzeMediaPlaylist, if_neg hseg,
    hsn _ (staleCheck_snd_last s st (jsNumOr m.mediaSequence 0) now),
    discontinuityCheck_jumps, discontinuityCheck_resets,
    staleCheck_fst_jumps, staleCheck_fst_resets]
  exact ⟨trivial, trivial⟩

/-- A minimal media playlist reporting the given mediaSequence with one
segment, used to drive concrete cycles. -/
def simpleMediaManifest (q : Int) : Manifest :=
  { playlists := [], segments := [{ uri := "segment.ts", discontinuity := false }],
    mediaSequence := some q, targetDuration := some 6,
    playlistType := some ("LIVE"), discontinuitySequence := none }

/-- A media playlist that reports no mediaSequence value at all. -/
def noSeqManifest : Manifest :=
  { playlists := [], segments := [{ uri := "segment.ts", discontinuity := false }],
    mediaSequence := none, targetDuration := some 6,
    playlistType := some ("LIVE"), discontinuitySequence := none }

/-- The transient state before any cycle has completed. -/
def initState : PollState :=
  { lastPollTime := 0, lastMediaSequence := -1, consecutiveStales := 0 }

/-- A transient state tracking the given last media sequence. -/
def trackState (q : Int) : PollState :=
  { lastPollTime := 0, lastMediaSequence := q, consecutiveStales := 0 }

/-- C2: on any poll cycle that reaches the sequence checks — on the initial
cycle (tracked last sequence −1) no MEDIA_SEQUENCE error is recorded and
previous/current sequences are stored as −1 and the current value; a jump
(current > last+1) increments sequenceJumps by exactly 1 and appends exactly
one MEDIA_SEQUENCE error citing previous, current and gap; a reset
(current < last) increments sequenceResets by exactly 1 and appends exactly
one MEDIA_SEQUENCE error referencing the reset; the jump and reset branches
never both fire. -/
theorem sequenceCheck_scenarios (s : Stream) (st : PollState) (m : Manifest)
    (now : Int) (hseg : ¬ m.segments.length = 0) :
    (st.lastMediaSequence = -1 →
      (analyzeMediaPlaylist s st m now).stream.health.previousMediaSequence = -1 ∧
      (analyzeMediaPlaylist s st m now).stream.health.mediaSequence
        = jsNumOr m.mediaSequence 0 ∧
      (analyzeMediaPlaylist s st m now).stream.health.sequenceJumps
        = s.health.sequenceJumps ∧
      (analyzeMediaPlaylist s st m now).stream.health.sequenceResets
        = s.health.sequenceResets ∧
      countMediaSequenceErrors (analyzeMediaPlaylist s st m now).stream.streamErrors
        = countMediaSequenceErrors s.streamErrors) ∧
    (st.lastMediaSequence ≠ -1 →
      jsNumOr m.mediaSequence 0 > st.lastMediaSequence + 1 →
      (analyzeMediaPlaylist s st m now).stream.health.sequenceJumps
        = s.health.sequenceJumps + 1 ∧
      (analyzeMediaPlaylist s st m now).stream.health.sequenceResets
        = s.health.sequenceResets ∧
      (analyzeMediaPlaylist s st m now).stream.streamErrors
        = s.streamErrors
          ++ [mkStreamError ErrorType.MEDIA_SEQUENCE ("VIDEO") (variantOf s)
                (jumpErrorDetails st.lastMediaSequence (jsNumOr m.mediaSequence 0))
                none]) ∧
    (st.lastMediaSequence ≠ -1 →
      jsNumOr m.mediaSequence 0 < st.lastMediaSequence →
      (analyzeMediaPlaylist s st m now).stream.health.sequenceJumps
        = s.health.sequenceJumps ∧
      (analyzeMediaPlaylist s st m now).stream.health.sequenceResets
        = s.health.sequenceResets + 1 ∧
      (analyzeMediaPlaylist s st m now).stream.streamErrors
        = s.streamErrors
          ++ [mkStreamError ErrorType.MEDIA_SEQUENCE ("VIDEO") (variantOf s)
                (resetErrorDetails st.lastMediaSequence (jsNumOr m.mediaSequence 0))
                none]) ∧
    ¬ ((analyzeMediaPlaylist s st m now).stream.health.sequenceJumps
        > s.health.sequenceJumps ∧
       (analyzeMediaPlaylist s st m now).stream.health.sequenceResets
        > s.health.sequenceResets) := by
  refine ⟨fun h0 => analyzeMedia_initial s st m now hseg h0,
         fun h0 hj => analyzeMedia_jump s st m now hseg h0 hj,
         fun h0 hr => analyzeMedia_reset s st m now hseg h0 hr, ?_⟩
  by_cases h0 : st.lastMediaSequence = -1
  · rcases analyzeMedia_initial s st m now hseg h0 with ⟨-, -, hj, hr, -⟩
    omega
  · by_cases hj : jsNumOr m.mediaSequence 0 > st.lastMediaSequence + 1
    · rcases analyzeMedia_jump s st m now hseg h0 hj with ⟨h1, h2, -⟩
      omega
    · by_cases hr : jsNumOr m.mediaSequence 0 < st.lastMediaSequence
      · rcases analyzeMedia_reset s st m now hseg h0 hr with ⟨h1, h2, -⟩
        omega
      · rcases analyzeMedia_seq_unchanged s st m now hseg hj hr with ⟨h1, h2⟩
        omega

/-- C2 witness: the scenario theorem at the spec's three concrete
scenarios — previous −1 / current 100, previous 100 / current 103 (jump,
gap 2) and previous 100 / current 97 (reset). -/
theorem sequenceCheck_scenarios_witness :
    ((analyzeMediaPlaylist demoStream initState (simpleMediaManifest 100)
        7000).stream.health.previousMediaSequence = -1 ∧
     (analyzeMediaPlaylist demoStream initState (simpleMediaManifest 100)
        7000).stream.health.mediaSequence
       = jsNumOr (simpleMediaManifest 100).mediaSequence 0 ∧
     (analyzeMediaPlaylist demoStream initState (simpleMediaManifest 100)
        7000).stream.health.sequenceJumps = demoStream.health.sequenceJumps ∧
     (analyzeMediaPlaylist demoStream initState (simpleMediaManifest 100)
        7000).stream.health.sequenceResets = demoStream.health.sequenceResets ∧
     countMediaSequenceErrors (analyzeMediaPlaylist demoStream initState
        (simpleMediaManifest 100) 7000).stream.streamErrors
       = countMediaSequenceErrors demoStream.streamErrors) ∧
    ((analyzeMediaPlaylist demoStream (trackState 100) (simpleMediaManifest 103)
        7000).stream.health.sequenceJumps = demoStream.health.sequenceJumps + 1 ∧
     (analyzeMediaPlaylist demoStream (trackState 100) (simpleMediaManifest 103)
        7000).stream.health.sequenceResets = demoStream.health.sequenceResets ∧
     (analyzeMediaPlaylist demoStream (trackState 100) (simpleMediaManifest 103)
        7000).stream.streamErrors
       = demoStream.streamErrors
         ++ [mkStreamError ErrorType.MEDIA_SEQUENCE ("VIDEO") (variantOf demoStream)
               (jumpErrorDetails (trackState 100).lastMediaSequence
                 (jsNumOr (simpleMediaManifest 103).mediaSequence 0)) none]) ∧
    ((analyzeMediaPlaylist demoStream (trackState 100) (simpleMediaManifest 97)
        7000).stream.health.sequenceJumps = demoStream.health.sequenceJumps ∧
     (analyzeMediaPlaylist demoStream (trackState 100) (simpleMediaManifest 97)
        7000).stream.health.sequenceResets = demoStream.health.sequenceResets + 1 ∧
     (analyzeMediaPlaylist demoStream (trackState 100) (simpleMediaManifest 97)
        7000).stream.streamErrors
       = demoStream.streamErrors
         ++ [mkStreamError ErrorType.MEDIA_SEQUENCE ("VIDEO") (variantOf demoStream)
               (resetErrorDetails (trackState 100).lastMediaSequence
                 (jsNumOr (simpleMediaManifest 97).mediaSequence 0)) none]) :=
  ⟨(sequenceCheck_scenarios demoStream initState (simpleMediaManifest 100) 7000
      (by decide)).1 (by decide),
   (sequenceCheck_scenarios demoStream (trackState 100) (simpleMediaManifest 103)
      7000 (by decide)).2.1 (by decide) (by decide),
   (sequenceCheck_scenarios demoStream (trackState 100) (simpleMediaManifest 97)
      7000 (by decide)).2.2.1 (by decide) (by decide)⟩

/-- C10: `checkStream` reads the current sequence as
`manifest.mediaSequence || 0`, so an absent (or zero) mediaSequence is
treated as 0; on a non-initial cycle whose tracked last sequence is
positive, such a manifest is recorded as a sequence reset: sequenceResets
is incremented by 1 and one MEDIA_SEQUENCE error is appended, even though
no sequence number was reported. -/
theorem missingMediaSequence_reset (s : Stream) (st : PollState) (m : Manifest)
    (vr : FetchResult) (now : Int)
    (hpl : m.playlists = [])
    (hseg : ¬ m.segments.length = 0)
    (hms : m.mediaSequence = none ∨ m.mediaSequence = some 0)
    (hpos : st.lastMediaSequence > 0) :
    jsNumOr m.mediaSequence 0 = 0 ∧
    (checkStream s st ⟨FetchResult.success m, vr⟩ now).stream.health.mediaSequence
      = 0 ∧
    (checkStream s st ⟨FetchResult.success m, vr⟩ now).stream.health.sequenceResets
      = s.health.sequenceResets + 1 ∧
    (checkStream s st ⟨FetchResult.success m, vr⟩ now).stream.health.sequenceJumps
      = s.health.sequenceJumps ∧
    (checkStream s st ⟨FetchResult.success m, vr⟩ now).stream.streamErrors
      = s.streamErrors
        ++ [mkStreamError ErrorType.MEDIA_SEQUENCE ("VIDEO") (variantOf s)
              (resetErrorDetails st.lastMediaSequence 0) none] := by
  have hc : jsNumOr m.mediaSequence 0 = 0 := by
    rcases hms with h | h <;> simp [jsNumOr, h]
  have h0 : st.lastMediaSequence ≠ -1 := by omega
  have hr : jsNumOr m.mediaSequence 0 < st.lastMediaSequence := by omega
  have hres := analyzeMedia_reset s st m now hseg h0 hr
  rw [hc] at hres
  rw [checkStream_media s st vr m now hpl]
  exact ⟨hc, by rw [analyzeMedia_mediaSequence s st m now hseg, hc],
    hres.2.1, hres.1, hres.2.2⟩

/-- C10 witness: a manifest with no mediaSequence on a stream tracked at
sequence 100 records a reset from 100 to 0. -/
theorem missingMediaSequence_reset_witness :
    jsNumOr noSeqManifest.mediaSequence 0 = 0 ∧
    (checkStream demoStream (trackState 100)
        ⟨FetchResult.success noSeqManifest, FetchResult.failure none ("")⟩
        7000).stream.health.mediaSequence = 0 ∧
    (checkStream demoStream (trackState 100)
        ⟨FetchResult.success noSeqManifest, FetchResult.failure none ("")⟩
        7000).stream.health.sequenceResets
      = demoStream.health.sequenceResets + 1 ∧
    (checkStream demoStream (trackState 100)
        ⟨FetchResult.success noSeqManifest, FetchResult.failure none ("")⟩
        7000).stream.health.sequenceJumps = demoStream.health.sequenceJumps ∧
    (checkStream demoStream (trackState 100)
        ⟨FetchResult.success noSeqManifest, FetchResult.failure none ("")⟩
        7000).stream.streamErrors
      = demoStream.streamErrors
        ++ [mkStreamError ErrorType.MEDIA_SEQUENCE ("VIDEO") (variantOf demoStream)
              (resetErrorDetails (trackState 100).lastMediaSequence 0) none] :=
  missingMediaSequence_reset demoStream (trackState 100) noSeqManifest
    (FetchResult.failure none ("")) 7000 (by decide) (by decide)
    (Or.inl (by decide)) (by decide)

theorem staleCheck_fst_totalErrors_le (s : Stream) (st : PollState) (c n : Int) :
    s.health.totalErrors ≤ (staleCheck s st c n).1.health.totalErrors := by
  simp only [staleCheck, addError]
  split_ifs <;> (try simp) <;> omega

theorem sequenceChecks_jumps_le (s : Stream) (st : PollState) (c : Int) :
    s.health.sequenceJumps ≤ (sequenceChecks s st c).health.sequenceJumps := by
  simp only [sequenceChecks, addError]
  split_ifs <;> (try simp) <;> omega

theorem sequenceChecks_resets_le (s : Stream) (st : PollState) (c : Int) :
    s.health.sequenceResets ≤ (sequenceChecks s st c).health.sequenceResets := by
  simp only [sequenceChecks, addError]
  split_ifs <;> (try simp) <;> omega

theorem sequenceChecks_totalErrors_le (s : Stream) (st : PollState) (c : Int) :
    s.health.totalErrors ≤ (sequenceChecks s st c).health.totalErrors := by
  simp only [sequenceChecks, addError]
  split_ifs <;> (try simp) <;> omega

theorem analyzeMedia_counters (s : Stream) (st : PollState) (m : Manifest)
    (now : Int) :
    s.health.sequenceJumps
      ≤ (analyzeMediaPlaylist s st m now).stream.health.sequenceJumps ∧
    s.health.sequenceResets
      ≤ (analyzeMediaPlaylist s st m now).stream.health.sequenceResets ∧
    s.health.totalErrors
      ≤ (analyzeMediaPlaylist s st m now).stream.health.totalErrors := by
  by_cases hseg : m.segments.length = 0
  · simp only [analyzeMediaPlaylist, if_pos hseg, addError_jumps, addError_resets,
      addError_totalErrors]
    refine ⟨?_, ?_, ?_⟩ <;> omega
  · simp only [analyzeMediaPlaylist, if_neg hseg, discontinuityCheck_jumps,
      discontinuityCheck_resets, discontinuityCheck_totalErrors]
    exact ⟨le_trans (le_of_eq (staleCheck_fst_jumps s st _ now).symm)
        (sequenceChecks_jumps_le _ _ _),
      le_trans (le_of_eq (staleCheck_fst_resets s st _ now).symm)
        (sequenceChecks_resets_le _ _ _),
      le_trans (staleCheck_fst_totalErrors_le s st _ now)
        (sequenceChecks_totalErrors_le _ _ _)⟩

theorem applyVariantAttributes_health (s : Stream) (v : Variant) :
    (applyVariantAttributes s v).health = s.health := by
  simp only [applyVariantAttributes]
  rcases hb : v.bandwidth with _ | bw <;> rcases hr : v.resolution with _ | wh <;>
    simp only [hb, hr] <;> split_ifs <;> rfl

theorem probeCompute_health (s : Stream) (meta : ProbeMetadata) :
    (probeCompute s meta).1.health = s.health := by
  simp only [probeCompute]
  rcases hf : meta.format with _ | f <;>
    rcases hv : meta.streams.find? (fun si => si.codec_type == "video")
      with _ | v <;>
    rcases ha : meta.streams.find? (fun si => si.codec_type == "audio")
      with _ | a <;>
    simp only [hf, hv, ha]

/-- C5: the three cumulative health counters never decrease: a poll cycle
(whatever its fetch outcome) can only increase sequenceJumps,
sequenceResets and totalErrors, and the asynchronous probe, thumbnail and
save operations leave the whole health block unchanged. -/
theorem counters_monotone (s : Stream) (st : PollState) (f : CycleFetch)
    (now : Int) (meta : ProbeMetadata) (r : Rat) (t : Int) (img : String) :
    (s.health.sequenceJumps
        ≤ (checkStream s st f now).stream.health.sequenceJumps ∧
     s.health.sequenceResets
        ≤ (checkStream s st f now).stream.health.sequenceResets ∧
     s.health.totalErrors
        ≤ (checkStream s st f now).stream.health.totalErrors) ∧
    (probeHandler s meta r t).1.health = s.health ∧
    (spriteHandler s img).health = s.health ∧
    (saveStream s).health = s.health := by
  refine ⟨?_, probeCompute_health s meta, rfl, rfl⟩
  rcases f with ⟨mr, vr⟩
  rcases mr with ⟨code, msg⟩ | ⟨master⟩
  · simp only [checkStream, addError_jumps, addError_resets, addError_totalErrors]
    refine ⟨?_, ?_, ?_⟩ <;> omega
  · rcases hm : master.playlists with _ | ⟨v, rest⟩
    · simp only [checkStream, hm]
      exact analyzeMedia_counters s st master now
    · rcases vr with ⟨code2, msg2⟩ | ⟨media⟩
      · simp only [checkStream, hm, addError_jumps, addError_resets,
          addError_totalErrors, applyVariantAttributes_health]
        refine ⟨?_, ?_, ?_⟩ <;> omega
      · have h := analyzeMedia_counters (applyVariantAttributes s v) st media now
        rw [applyVariantAttributes_health] at h
        simp only [checkStream, hm]
        exact h

theorem jsNumOr_some (q : Int) : jsNumOr (some q) 0 = q := by
  simp only [jsNumOr]
  split_ifs <;> omega

theorem sequenceChecks_status (s : Stream) (st : PollState) (c : Int) :
    (sequenceChecks s st c).status = s.status := by
  simp only [sequenceChecks, addError]
  split_ifs <;> rfl

theorem sequenceChecks_threshold (s : Stream) (st : PollState) (c : Int) :
    (sequenceChecks s st c).health.staleThreshold = s.health.staleThreshold := by
  simp only [sequenceChecks, addError]
  split_ifs <;> rfl

theorem sequenceChecks_isStale (s : Stream) (st : PollState) (c : Int) :
    (sequenceChecks s st c).health.isStale = s.health.isStale := by
  simp only [sequenceChecks, addError]
  split_ifs <;> rfl

theorem sequenceChecks_countStale (s : Stream) (st : PollState) (c : Int) :
    countStaleErrors (sequenceChecks s st c).streamErrors
      = countStaleErrors s.streamErrors := by
  simp only [sequenceChecks, addError, mkStreamError]
  split_ifs <;>
    first
      | (exfalso; omega)
      | simp [countStaleErrors_append, mkStreamError]

/-- The cycle input used by the staleness runs: a successful fetch of the
one-segment media playlist reporting sequence `q`. -/
def mediaFetch (q : Int) : CycleFetch :=
  { masterResult := FetchResult.success (simpleMediaManifest q),
    variantResult := FetchResult.failure none ("") }

/-- A run of consecutive poll cycles of the same stream, each fetching the
media playlist that reports sequence `q`, at the given cycle times. -/
def runCycles (s : Stream) (st : PollState) (q : Int) : List Int → Stream × PollState
  | [] => (s, st)
  | t :: ts =>
      runCycles (checkStream s st (mediaFetch q) t).stream
        (checkStream s st (mediaFetch q) t).state q ts

/-- A whole staleness episode: one cycle at time `t0` on which the reported
sequence `q` first appears, followed by further cycles at times `ts` all
reporting the same `q`. -/
def staleRun (s : Stream) (st : PollState) (q t0 : Int) (ts : List Int) :
    Stream × PollState :=
  runCycles (checkStream s st (mediaFetch q) t0).stream
    (checkStream s st (mediaFetch q) t0).state q ts

/-- How many of the cycles at times `ts` (the previous cycle having run at
`tprev`) see `now - lastPollTime` exceed the stale threshold `θ`. -/
def qualifyingCount (θ tprev : Int) : List Int → Nat
  | [] => 0
  | t :: ts => (if t - tprev > θ then 1 else 0) + qualifyingCount θ t ts

theorem checkStream_mediaFetch (s : Stream) (st : PollState) (q t : Int) :
    checkStream s st (mediaFetch q) t
      = analyzeMediaPlaylist s st (simpleMediaManifest q) t := rfl

/-- A cycle whose reported sequence differs from the tracked one: status
goes online, isStale clears, consecutiveStales resets, the state tracks the
new sequence and poll time, and no STALE_MANIFEST error is appended. -/
theorem checkStream_newSequence (s : Stream) (st : PollState) (q t : Int)
    (hq : q ≠ st.lastMediaSequence) :
    (checkStream s st (mediaFetch q) t).state
      = { lastPollTime := t, lastMediaSequence := q, consecutiveStales := 0 } ∧
    (checkStream s st (mediaFetch q) t).stream.status = Status.online ∧
    (checkStream s st (mediaFetch q) t).stream.health.isStale = false ∧
    (checkStream s st (mediaFetch q) t).stream.health.staleThreshold
      = s.health.staleThreshold ∧
    countStaleErrors (checkStream s st (mediaFetch q) t).stream.streamErrors
      = countStaleErrors s.streamErrors := by
  have hseg : ¬ (simpleMediaManifest q).segments.length = 0 := by
    simp [simpleMediaManifest]
  have hc : jsNumOr (simpleMediaManifest q).mediaSequence 0 = q := by
    show jsNumOr (some q) 0 = q
    exact jsNumOr_some q
  rw [checkStream_mediaFetch]
  simp only [analyzeMediaPlaylist, if_neg hseg, hc, staleCheck_ne st q hq s t,
    discontinuityCheck_status, discontinuityCheck_streamErrors,
    discontinuityCheck_threshold, discontinuityCheck_isStale,
    sequenceChecks_status, sequenceChecks_countStale, sequenceChecks_threshold,
    sequenceChecks_isStale]
  exact ⟨trivial, trivial, trivial, trivial, trivial⟩

/-- A cycle whose reported sequence equals the tracked one (a stale cycle):
consecutiveStales increments; when the inter-cycle gap exceeds the
threshold, isStale is set, status becomes stale and one STALE_MANIFEST
error is appended — on EVERY such cycle, not only the first; otherwise
status and isStale are left as they were. -/
theorem checkStream_staleStep (s : Stream) (st : PollState) (q t : Int)
    (hq : q = st.lastMediaSequence) :
    (checkStream s st (mediaFetch q) t).state
      = { lastPollTime := t, lastMediaSequence := q,
          consecutiveStales := st.consecutiveStales + 1 } ∧
    (checkStream s st (mediaFetch q) t).stream.health.staleThreshold
      = s.health.staleThreshold ∧
    (t - st.lastPollTime > s.health.staleThreshold →
      (checkStream s st (mediaFetch q) t).stream.status = Status.stale ∧
      (checkStream s st (mediaFetch q) t).stream.health.isStale = true ∧
      countStaleErrors (checkStream s st (mediaFetch q) t).stream.streamErrors
        = countStaleErrors s.streamErrors + 1) ∧
    (¬ t - st.lastPollTime > s.health.staleThreshold →
      (checkStream s st (mediaFetch q) t).stream.status = s.status ∧
      (checkStream s st (mediaFetch q) t).stream.health.isStale
        = s.health.isStale ∧
      countStaleErrors (checkStream s st (mediaFetch q) t).stream.streamErrors
        = countStaleErrors s.streamErrors) := by
  have hseg : ¬ (simpleMediaManifest q).segments.length = 0 := by
    simp [simpleMediaManifest]
  have hc : jsNumOr (simpleMediaManifest q).mediaSequence 0 = q := by
    show jsNumOr (some q) 0 = q
    exact jsNumOr_some q
  have h1 : ¬ q > ({ st with consecutiveStales := st.consecutiveStales + 1 }
      : PollState).lastMediaSequence + 1 := by
    simp only []
    omega
  have h2 : ¬ q < ({ st with consecutiveStales := st.consecutiveStales + 1 }
      : PollState).lastMediaSequence := by
    simp only []
    omega
  rw [checkStream_mediaFetch]
  by_cases hthr : t - st.lastPollTime > s.health.staleThreshold
  · simp only [analyzeMediaPlaylist, if_neg hseg, hc,
      staleCheck_stale_hit s st q t hq hthr,
      sequenceChecks_noop _ _ h1 h2,
      discontinuityCheck_status, discontinuityCheck_streamErrors,
      discontinuityCheck_threshold, discontinuityCheck_isStale,
      addError_status, addError_streamErrors, addError_threshold,
      addError_isStale, countStaleErrors_append, mkStreamError]
    refine ⟨trivial, trivial, fun h => ⟨trivial, trivial, by simp⟩,
      fun hn => absurd hthr hn⟩
  · simp only [analyzeMediaPlaylist, if_neg hseg, hc,
      staleCheck_stale_miss s st q t hq hthr,
      sequenceChecks_noop _ _ h1 h2,
      discontinuityCheck_status, discontinuityCheck_streamErrors,
      discontinuityCheck_threshold, discontinuityCheck_isStale]
    refine ⟨trivial, trivial, fun h => absurd h hthr,
      fun hn => ⟨trivial, trivial, trivial⟩⟩

/-- The shape of a whole tail of stale cycles (every cycle reports the
already-tracked sequence `q`): consecutiveStales grows by the number of
cycles, one STALE_MANIFEST error lands per threshold-exceeding cycle, and
status/isStale reflect whether any cycle exceeded the threshold. -/
theorem runCycles_stale (q θ : Int) (ts : List Int) :
    ∀ (s : Stream) (st : PollState),
      st.lastMediaSequence = q → s.health.staleThreshold = θ →
      (runCycles s st q ts).1.health.staleThreshold = θ ∧
      (runCycles s st q ts).2.consecutiveStales
        = st.consecutiveStales + ts.length ∧
      (runCycles s st q ts).2.lastMediaSequence = q ∧
      countStaleErrors (runCycles s st q ts).1.streamErrors
        = countStaleErrors s.streamErrors
          + qualifyingCount θ st.lastPollTime ts ∧
      (runCycles s st q ts).1.status
        = (if 0 < qualifyingCount θ st.lastPollTime ts then Status.stale
           else s.status) ∧
      (runCycles s st q ts).1.health.isStale
        = (if 0 < qualifyingCount θ st.lastPollTime ts then true
           else s.health.isStale) := by
  induction ts with
  | nil =>
      intro s st hst hθ
      simp [runCycles, qualifyingCount, hθ, hst]
  | cons t ts ih =>
      intro s st hst hθ
      obtain ⟨hstate, hthr, hhit, hmiss⟩ := checkStream_staleStep s st q t hst.symm
      have hlast : (checkStream s st (mediaFetch q) t).state.lastMediaSequence
          = q := by rw [hstate]
      have hpoll : (checkStream s st (mediaFetch q) t).state.lastPollTime = t := by
        rw [hstate]
      have hstales : (checkStream s st (mediaFetch q) t).state.consecutiveStales
          = st.consecutiveStales + 1 := by rw [hstate]
      have hthr2 : (checkStream s st (mediaFetch q) t).stream.health.staleThreshold
          = θ := by rw [hthr, hθ]
      obtain ⟨ih1, ih2, ih3, ih4, ih5, ih6⟩ :=
        ih (checkStream s st (mediaFetch q) t).stream
          (checkStream s st (mediaFetch q) t).state hlast hthr2
      rw [hθ] at hhit hmiss
      simp only [runCycles, qualifyingCount, List.length_cons]
      rw [hpoll] at ih4 ih5 ih6
      by_cases hc : t - st.lastPollTime > θ
      · obtain ⟨hs1, hs2, hs3⟩ := hhit hc
        refine ⟨ih1, ?_, ih3, ?_, ?_, ?_⟩
        · rw [ih2, hstales]
          omega
        · rw [ih4, hs3, if_pos hc]
          omega
        · rw [ih5, hs1]
          split_ifs <;> first | rfl | (exfalso; omega)
        · rw [ih6, hs2]
          split_ifs <;> first | rfl | (exfalso; omega)
      · obtain ⟨hs1, hs2, hs3⟩ := hmiss hc
        refine ⟨ih1, ?_, ih3, ?_, ?_, ?_⟩
        · rw [ih2, hstales]
          omega
        · rw [ih4, hs3, if_neg hc]
          omega
        · rw [ih5, hs1]
          split_ifs <;> first | rfl | (exfalso; omega)
        · rw [ih6, hs2]
          split_ifs <;> first | rfl | (exfalso; omega)

/-- C1 counterexample: a qualifying run of N = 3 consecutive cycles all
reporting mediaSequence 5 (tracked value beforehand: 4) on a stream with
staleThreshold 7000, at times 1000, 9000 and 17000 — every inter-cycle gap
is 8000 > 7000.  consecutiveStales is incremented N−1 = 2 times as the
claim says, but a STALE_MANIFEST error is appended TWICE, once per
threshold-exceeding cycle, refuting "exactly once, at the first such
cycle". -/
theorem staleness_counterexample :
    demoStream.health.staleThreshold = 7000 ∧
    (staleRun demoStream (trackState 4) 5 1000
        [9000, 17000]).2.consecutiveStales = 2 ∧
    countStaleErrors (staleRun demoStream (trackState 4) 5 1000
        [9000, 17000]).1.streamErrors = 2 ∧
    ¬ countStaleErrors (staleRun demoStream (trackState 4) 5 1000
        [9000, 17000]).1.streamErrors = 1 := by
  decide

/-- C1 amended: over a run of N ≥ 2 consecutive cycles reporting the same
mediaSequence (the first cycle, at `t0`, introduces the value; the further
cycles run at times `ts`): consecutiveStales is incremented exactly N−1
times; at EVERY cycle — not only the first — where `now − lastPollTime`
exceeds staleThreshold, isStale is set to true, status is set to `stale`
and one STALE_MANIFEST error is appended, so the number of appended
STALE_MANIFEST errors equals the number of threshold-exceeding cycles; and
status reverts to `online` exactly on the next cycle whose reported
mediaSequence differs. -/
theorem staleness_run_amended (s : Stream) (st : PollState) (q t0 : Int)
    (ts : List Int) (hq : q ≠ st.lastMediaSequence) :
    (staleRun s st q t0 ts).2.consecutiveStales = ts.length ∧
    countStaleErrors (staleRun s st q t0 ts).1.streamErrors
      = countStaleErrors s.streamErrors
        + qualifyingCount s.health.staleThreshold t0 ts ∧
    (staleRun s st q t0 ts).1.status
      = (if 0 < qualifyingCount s.health.staleThreshold t0 ts then Status.stale
         else Status.online) ∧
    (staleRun s st q t0 ts).1.health.isStale
      = (if 0 < qualifyingCount s.health.staleThreshold t0 ts then true
         else false) ∧
    (∀ q2 t2, q2 ≠ q →
      (checkStream (staleRun s st q t0 ts).1 (staleRun s st q t0 ts).2
        (mediaFetch q2) t2).stream.status = Status.online) := by
  obtain ⟨h1, h2, h3, h4, h5⟩ := checkStream_newSequence s st q t0 hq
  obtain ⟨g1, g2, g3, g4, g5, g6⟩ := runCycles_stale q s.health.staleThreshold ts
    (checkStream s st (mediaFetch q) t0).stream
    (checkStream s st (mediaFetch q) t0).state (by rw [h1]) h4
  have hpoll : (checkStream s st (mediaFetch q) t0).state.lastPollTime = t0 := by
    rw [h1]
  have hstales0 :
      (checkStream s st (mediaFetch q) t0).state.consecutiveStales = 0 := by
    rw [h1]
  rw [hpoll] at g4 g5 g6
  simp only [staleRun]
  refine ⟨?_, ?_, ?_, ?_, ?_⟩
  · rw [g2, hstales0]
    omega
  · rw [g4, h5]
  · rw [g5, h2]
  · rw [g6, h3]
  · intro q2 t2 hq2
    have hne : q2 ≠ (runCycles (checkStream s st (mediaFetch q) t0).stream
        (checkStream s st (mediaFetch q) t0).state q ts).2.lastMediaSequence := by
      rw [g3]
      exact hq2
    exact (checkStream_newSequence _ _ q2 t2 hne).2.1

/-- C1 witness: the amended staleness theorem instantiated on the concrete
3-cycle run of the counterexample. -/
theorem staleness_run_amended_witness :
    (5 : Int) ≠ (trackState 4).lastMediaSequence ∧
    ((staleRun demoStream (trackState 4) 5 1000
        [9000, 17000]).2.consecutiveStales = ([9000, 17000] : List Int).length ∧
     countStaleErrors (staleRun demoStream (trackState 4) 5 1000
        [9000, 17000]).1.streamErrors
       = countStaleErrors demoStream.streamErrors
         + qualifyingCount demoStream.health.staleThreshold 1000 [9000, 17000] ∧
     (staleRun demoStream (trackState 4) 5 1000 [9000, 17000]).1.status
       = (if 0 < qualifyingCount demoStream.health.staleThreshold 1000
             [9000, 17000] then Status.stale else Status.online) ∧
     (staleRun demoStream (trackState 4) 5 1000 [9000, 17000]).1.health.isStale
       = (if 0 < qualifyingCount demoStream.health.staleThreshold 1000
             [9000, 17000] then true else false) ∧
     (∀ q2 t2, q2 ≠ (5 : Int) →
       (checkStream (staleRun demoStream (trackState 4) 5 1000 [9000, 17000]).1
           (staleRun demoStream (trackState 4) 5 1000 [9000, 17000]).2
           (mediaFetch q2) t2).stream.status = Status.online)) :=
  ⟨by decide,
   staleness_run_amended demoStream (trackState 4) 5 1000 [9000, 17000]
     (by decide)⟩

/-- C6: when the master-manifest fetch fails, the cycle sets status to
`error`, appends exactly one MANIFEST_RETRIEVAL error with mediaType
MASTER and the thrown HTTP status as code, emits one update event, writes
no metrics snapshot and never reaches `processSegment`; and the monitor
loop checks every stream independently of other streams' outcomes. -/
theorem masterFetchFailure_shortCircuit (s : Stream) (st : PollState)
    (vr : FetchResult) (code : Option Int) (msg : String) (now : Int)
    (cycles : List (Stream × PollState × CycleFetch × Int)) :
    (checkStream s st ⟨FetchResult.failure code msg, vr⟩ now).stream.status
      = Status.error ∧
    (checkStream s st ⟨FetchResult.failure code msg, vr⟩ now).stream.streamErrors
      = s.streamErrors ++ [mkStreamError ErrorType.MANIFEST_RETRIEVAL ("MASTER")
          (variantOf s) ("Failed to fetch manifest: " ++ msg) code] ∧
    (checkStream s st ⟨FetchResult.failure code msg, vr⟩ now).updateEmitted = true ∧
    (checkStream s st ⟨FetchResult.failure code msg, vr⟩ now).metricsRecorded = false ∧
    (checkStream s st ⟨FetchResult.failure code msg, vr⟩ now).segmentProcessed = false ∧
    monitorLoop cycles
      = cycles.map (fun x => checkStream x.1 x.2.1 x.2.2.1 x.2.2.2) := by
  refine ⟨rfl, rfl, rfl, rfl, rfl, ?_⟩
  induction cycles with
  | nil => rfl
  | cons x rest ih => simp only [monitorLoop, List.map_cons, ih]

end HLSMonitor
